import Mathlib

/-!
Verification of the mcphub registry / scanner-aggregation code.

The Python sources are shallowly embedded: dictionaries become structures
with `Option` fields where a key may be absent, exceptions become `Option`
results, wall-clock time in the polling loop is the accumulated sleep time,
and Python floats (only compared against the literal 80) become rationals.
Each definition is named after the Python function it translates.
-/

namespace Mcphub

/-- Embedding of Python `str.lower()` (ASCII case mapping, which is all the
code relies on), written over the character list so it evaluates by `decide`. -/
def py_lower (s : String) : String := String.mk (s.data.map Char.toLower)

/-- Embedding of Python `str.upper()` (ASCII case mapping). -/
def py_upper (s : String) : String := String.mk (s.data.map Char.toUpper)

/-! ## Registry store (src/mcphub/s3_handler.py) -/

/-- The `meta` object of a server record: `{"created_at": ..., "updated_at": ...}`. -/
structure ServerMeta where
  created_at : String
  updated_at : String
deriving Repr, DecidableEq

/-- A server record in the registry.  `name` is the identity key; `meta` is
optional because `add_server_to_mcp` guards with `'meta' in existing_server`;
`payload` stands for all remaining fields of the record (version, author,
tools, ...), which the registry code copies around opaquely. -/
structure Server where
  name : String
  meta : Option ServerMeta
  payload : String
deriving Repr, DecidableEq

/-- The registry document `mcp.json`: `{"servers": [...]}` plus any other
top-level keys (`extra`), which `add_server_to_mcp` preserves because it only
reassigns the `servers` key. -/
structure McpData where
  servers : List Server
  extra : String
deriving Repr, DecidableEq

/-- Outcome of the `s3.get_object` read at the top of `add_server_to_mcp`:
the object was found, or the key is missing (`NoSuchKey`), or any other
`botocore` `ClientError` with some error code. -/
inductive ReadResult where
  | found (data : McpData)
  | noSuchKey
  | clientError (code : String)
deriving Repr, DecidableEq

/-- The lookup loop `for s in servers: if s.get('name') == server_data['name']`
with `break`: first record whose name equals the given name. -/
def find_existing (servers : List Server) (name : String) : Option Server :=
  servers.find? (fun s => s.name == name)

/-- Lines 47-48 of s3_handler.py: if an existing record was found and it has a
`meta` key, overwrite the incoming record's `meta['created_at']` with the
stored one.  Python raises `KeyError` when the incoming record then has no
`meta` key; that crash is the `none` result. -/
def carry_created_at (server_data : Server) (existing : Option Server) : Option Server :=
  match existing with
  | some ex =>
    match ex.meta with
    | some exm =>
      match server_data.meta with
      | some sm => some { server_data with meta := some { sm with created_at := exm.created_at } }
      | none => none
    | none => some server_data
  | none => some server_data

/-- The registry mutation of `add_server_to_mcp` (lines 39-52): locate the
existing record, carry the stored `created_at` forward, drop every record with
the incoming name and append the incoming record. -/
def upsert_servers (servers : List Server) (server_data : Server) : Option (List Server) :=
  match carry_created_at server_data (find_existing servers server_data.name) with
  | none => none
  | some sd => some ((servers.filter (fun s => s.name != server_data.name)) ++ [sd])

/-- `add_server_to_mcp`: any read failure (missing key or any other client
error) is replaced by the empty document `{"servers": []}`, then the upsert
runs and the whole document is written back; the function returns `True`.
The result pairs the document passed to `put_object` with the return value;
`none` is the `KeyError` crash inherited from `carry_created_at`. -/
def add_server_to_mcp (read : ReadResult) (server_data : Server) : Option (McpData × Bool) :=
  let mcp_data : McpData :=
    match read with
    | .found d => d
    | .noSuchKey => { servers := [], extra := "" }
    | .clientError _ => { servers := [], extra := "" }
  match upsert_servers mcp_data.servers server_data with
  | none => none
  | some servers => some ({ mcp_data with servers := servers }, true)

/-- `check_server_exists` (successful-read path): scans the server list for a
record with exactly the queried name and returns the flag with the document. -/
def check_server_exists (mcp_data : McpData) (server_name : String) : Bool × McpData :=
  (mcp_data.servers.any (fun s => s.name == server_name), mcp_data)

/-- The record the upsert actually stores for `X`: `X` itself, except that
`created_at` is carried over from the first previously stored record with the
same name when that record has a `meta` field.  Used to state theorems. -/
def stored_record (servers : List Server) (X : Server) : Server :=
  match find_existing servers X.name, X.meta with
  | some e, some xm =>
    match e.meta with
    | some em => { X with meta := some { created_at := em.created_at, updated_at := xm.updated_at } }
    | none => X
  | some _, none => X
  | none, _ => X

/-! ## Name lookups in the other modules -/

/-- `find_server_entry` (src/mcphub/ggshield.py): first record with
`s.get("name") == name`. -/
def find_server_entry (servers : List Server) (name : String) : Option Server :=
  servers.find? (fun s => s.name == name)

/-- `find_mcp_by_name` (src/mcphub/snyk_scanner.py): first record with
`mcp.get("name", "").lower() == name.lower()` - a lowercased comparison. -/
def find_mcp_by_name (mcp_servers : List Server) (name : String) : Option Server :=
  mcp_servers.find? (fun mcp => py_lower mcp.name == py_lower name)

/-! ## Report aggregator (create_security_report, src/mcphub/cli.py)

Only the report fields the verified claims mention are modelled:
`summary.total_issues_all_scanners`, `summary.scan_passed`, and
`recommendations`; the per-scanner passthrough blocks copy inputs verbatim. -/

/-- The value found at `metrics['coverage']`: a string that parses as a float
(`numStr`), the empty string (falsy, so Python substitutes 0), or a non-empty
string on which `float()` raises (caught, coverage becomes 0).  A missing
`metrics` dict or key is `none` at the use site. -/
inductive CoverageVal where
  | numStr (q : Rat)
  | emptyStr
  | badStr
deriving Repr, DecidableEq

/-- The fields of the SonarQube report dict that `create_security_report`
reads through defaulting `.get` chains. -/
structure SonarData where
  issue_counts_total : Option Nat
  metrics_coverage : Option CoverageVal
deriving Repr

/-- The fields of the ggshield result dict that the aggregator reads. -/
structure GgshieldResult where
  total_secrets : Option Nat
deriving Repr

/-- The fields of the Bandit result dict that the aggregator reads. -/
structure BanditResult where
  total_issues : Option Nat
  severity_counts_high : Option Nat
deriving Repr

/-- Lines 74-79 of cli.py: read `metrics.coverage` with default 0, then
`float(coverage) if coverage else 0` with `ValueError`/`TypeError` mapped
to 0. -/
def resolve_coverage : Option CoverageVal → Rat
  | none => 0
  | some .emptyStr => 0
  | some .badStr => 0
  | some (.numStr q) => q

def msg_critical : String := "Critical security issues found - immediate action required"
def msg_secrets : String := "Secrets detected - rotate credentials immediately"
def msg_vulns : String := "Security vulnerabilities found - review and fix"
def msg_high : String := "High-severity issues detected - prioritize fixes"
def msg_coverage : String := "Code coverage below 80% - add more tests"
def msg_all_passed : String := "All security scans passed - good job!"

/-- The summary and recommendations of the unified report. -/
structure SecurityReport where
  total_issues_all_scanners : Nat
  critical_issues : Nat
  scan_passed : Bool
  recommendations : List String
deriving Repr

/-- `create_security_report` restricted to the modelled fields: the summary
counts (lines 26-37) and the recommendation rules (lines 70-92). -/
def create_security_report (sq : SonarData) (gg : GgshieldResult) (bd : BanditResult) :
    SecurityReport :=
  let sonar_issues := sq.issue_counts_total.getD 0
  let secrets := gg.total_secrets.getD 0
  let bandit_issues := bd.total_issues.getD 0
  let high_severity := bd.severity_counts_high.getD 0
  let coverage := resolve_coverage sq.metrics_coverage
  let recs :=
    (if 5 < sonar_issues ∨ 0 < secrets ∨ 0 < high_severity then [msg_critical] else []) ++
    (if 0 < secrets then [msg_secrets] else []) ++
    (if 0 < bandit_issues then [msg_vulns] else []) ++
    (if 0 < high_severity then [msg_high] else []) ++
    (if coverage < 80 then [msg_coverage] else [])
  { total_issues_all_scanners := sonar_issues + secrets + bandit_issues,
    critical_issues := 0,
    scan_passed := sonar_issues == 0 && secrets == 0 && bandit_issues == 0,
    recommendations := if recs.length = 0 then [msg_all_passed] else recs }

/-! ## Bandit adapter (_parse_bandit_results, src/mcphub/snyk_scanner.py) -/

/-- One entry of the raw Bandit JSON `results` array, restricted to the keys
`_parse_bandit_results` reads (each through a defaulting `.get`). -/
structure RawIssue where
  issue_severity : Option String
  issue_confidence : Option String
  issue_text : Option String
  filename : Option String
  line_number : Option Nat
deriving Repr, DecidableEq

/-- The dict literal `confidence_map = {"HIGH": "high", "MEDIUM": "medium",
"LOW": "low"}` read through `.get(key, "low")`. -/
def confidence_map_get (k : String) : String :=
  if k == "HIGH" then "high"
  else if k == "MEDIUM" then "medium"
  else if k == "LOW" then "low"
  else "low"

/-- The dict literal `severity_order = {"high": 0, "medium": 1, "low": 2}`
read through `.get(key, 3)`, used as the sort key. -/
def severity_order_get (k : String) : Nat :=
  if k == "high" then 0
  else if k == "medium" then 1
  else if k == "low" then 2
  else 3

/-- A normalized issue as appended to `detailed_issues` (the keys the claims
concern; `code`, `test_id`, `test_name` and `cwe` ride along in `payload`
fashion and are omitted). -/
structure DetailedIssue where
  title : String
  severity : String
  confidence : String
  file : String
  line_number : Nat
deriving Repr, DecidableEq

/-- The per-issue body of the loop in `_parse_bandit_results` (lines 150-169):
note that `sev_key = confidence_map.get(severity, "low")` is applied to the
upper-cased `issue_severity` value, while the upper-cased `issue_confidence`
value only feeds the record's own `confidence` key. -/
def normalize_issue (issue : RawIssue) : DetailedIssue :=
  let severity := py_upper (issue.issue_severity.getD "UNDEFINED")
  let confidence := py_upper (issue.issue_confidence.getD "UNDEFINED")
  let sev_key := confidence_map_get severity
  { title := issue.issue_text.getD "Unknown security issue",
    severity := sev_key,
    confidence := confidence_map_get confidence,
    file := issue.filename.getD "Unknown",
    line_number := issue.line_number.getD 0 }

/-- The per-severity tally `{high, medium, low}`. -/
structure SeverityCounts where
  high : Nat
  medium : Nat
  low : Nat
deriving Repr, DecidableEq

/-- `if sev_key in severity_counts: severity_counts[sev_key] += 1`. -/
def bump_severity (c : SeverityCounts) (sev_key : String) : SeverityCounts :=
  if sev_key == "high" then { c with high := c.high + 1 }
  else if sev_key == "medium" then { c with medium := c.medium + 1 }
  else if sev_key == "low" then { c with low := c.low + 1 }
  else c

/-- Stable insertion: walks past strictly smaller keys so that an element is
placed before later elements with an equal key.  Together with
`sort_by_sev` this reproduces Python's stable ascending `list.sort(key=...)`
(any two stable sorts by the same key coincide). -/
def insert_by_sev (x : DetailedIssue) : List DetailedIssue → List DetailedIssue
  | [] => [x]
  | y :: ys =>
    if severity_order_get y.severity < severity_order_get x.severity then
      y :: insert_by_sev x ys
    else x :: y :: ys

/-- Stable sort ascending by `severity_order.get(x["severity"], 3)`. -/
def sort_by_sev : List DetailedIssue → List DetailedIssue
  | [] => []
  | x :: xs => insert_by_sev x (sort_by_sev xs)

/-- Raw input to `_parse_bandit_results`: the `results` array and the line
count at `metrics["_totals"]["loc"]` (absent keys are `none`). -/
structure BanditRaw where
  results : List RawIssue
  totals_loc : Option Nat
deriving Repr

/-- Output dict of `_parse_bandit_results`. -/
structure BanditParsed where
  ok : Bool
  total_issues : Nat
  severity_counts : SeverityCounts
  issues : List DetailedIssue
  total_lines_scanned : Nat
deriving Repr

/-- `_parse_bandit_results`: normalize every raw issue, tally the severity
buckets from the same `sev_key`, and sort the detailed list ascending by
severity rank. -/
def parse_bandit_results (raw : BanditRaw) : BanditParsed :=
  let issues := raw.results
  let severity_counts :=
    issues.foldl (fun c i => bump_severity c (normalize_issue i).severity) ⟨0, 0, 0⟩
  let detailed := issues.map normalize_issue
  { ok := issues.length == 0,
    total_issues := issues.length,
    severity_counts := severity_counts,
    issues := sort_by_sev detailed,
    total_lines_scanned := raw.totals_loc.getD 0 }

/-! ## Analysis poller (wait_for_analysis_completion, src/mcphub/sonarqube.py) -/

/-- One HTTP poll outcome as the loop body distinguishes them: a 200 response
whose JSON has a truthy `queue`, a 200 response with a `current.status`, a 200
response with neither, a non-200 response, or a raised exception. -/
inductive PollResponse where
  | queuedResp
  | currentResp (status : String)
  | emptyResp
  | httpErrorResp
  | exnResp
deriving Repr, DecidableEq

/-- What one iteration of the polling loop does with a response:
`some ready` means return `ready`, `none` means sleep 3 seconds and re-poll. -/
def poll_outcome : PollResponse → Option Bool
  | .queuedResp => none
  | .currentResp status =>
    if status == "SUCCESS" then some true
    else if status == "PENDING" || status == "IN_PROGRESS" then none
    else some false
  | .emptyResp => some true
  | .httpErrorResp => none
  | .exnResp => none

/-- The `while time.time() - start_time < max_wait` loop: `responses i` is the
outcome of the i-th poll, `elapsed` the accumulated sleep time (3 seconds per
non-terminal iteration - the only time the model charges), `sleeps` the number
of sleeps so far.  When the deadline passes the loop falls through to
`return True` (timeout-as-success). -/
def wait_go (responses : Nat → PollResponse) (max_wait i elapsed sleeps : Nat) : Bool × Nat :=
  if _h : elapsed < max_wait then
    match poll_outcome (responses i) with
    | some r => (r, sleeps)
    | none => wait_go responses max_wait (i + 1) (elapsed + 3) (sleeps + 1)
  else (true, sleeps)
termination_by max_wait - elapsed
decreasing_by omega

/-- `wait_for_analysis_completion` (default `max_wait=60`): returns the ready
flag together with the number of sleep cycles performed. -/
def wait_for_analysis_completion (responses : Nat → PollResponse) (max_wait : Nat) :
    Bool × Nat :=
  wait_go responses max_wait 0 0 0

/-- The status sequence QUEUED, IN_PROGRESS, SUCCESS. -/
def respSeq3 : Nat → PollResponse := fun i =>
  if i = 0 then .queuedResp
  else if i = 1 then .currentResp "IN_PROGRESS"
  else .currentResp "SUCCESS"

/-! ## Pagination (fetch_issues / fetch_hotspots, src/mcphub/sonarqube.py) -/

/-- The server's answer to one page request: a 200 response carrying the rows
of the page and the reported `total`, a non-200 response, or an exception. -/
inductive PageResult (α : Type) where
  | ok (rows : List α) (total : Nat)
  | httpError
  | exn
deriving Repr, DecidableEq

/-- `page_size = 500`. -/
def page_size : Nat := 500

/-- The `while True` loop of `fetch_issues`: `pages` lists the responses to
the successive page requests; a non-200 response or exception breaks with the
rows accumulated so far; a page is accumulated and the loop breaks once the
accumulated count reaches the reported total or the page is short.  Returns
the accumulated rows and the number of page requests made. -/
def fetch_issues_go {α : Type} (pages : List (PageResult α)) (acc : List α) (reqs : Nat) :
    List α × Nat :=
  match pages with
  | [] => (acc, reqs)
  | p :: rest =>
    match p with
    | .httpError => (acc, reqs + 1)
    | .exn => (acc, reqs + 1)
    | .ok rows total =>
      let acc2 := acc ++ rows
      if total ≤ acc2.length ∨ rows.length < page_size then (acc2, reqs + 1)
      else fetch_issues_go rest acc2 (reqs + 1)

/-- `fetch_issues`, starting from `all_issues = []` and page 1. -/
def fetch_issues {α : Type} (pages : List (PageResult α)) : List α × Nat :=
  fetch_issues_go pages [] 0

/-- The `while True` loop of `fetch_hotspots`; identical control flow, with
the reported total read from `paging.total` instead of the top-level `total`
(both are the `total` carried by the page response here). -/
def fetch_hotspots_go {α : Type} (pages : List (PageResult α)) (acc : List α) (reqs : Nat) :
    List α × Nat :=
  match pages with
  | [] => (acc, reqs)
  | p :: rest =>
    match p with
    | .httpError => (acc, reqs + 1)
    | .exn => (acc, reqs + 1)
    | .ok rows total =>
      let acc2 := acc ++ rows
      if total ≤ acc2.length ∨ rows.length < page_size then (acc2, reqs + 1)
      else fetch_hotspots_go rest acc2 (reqs + 1)

/-- `fetch_hotspots`, starting from `all_hotspots = []` and page 1. -/
def fetch_hotspots {α : Type} (pages : List (PageResult α)) : List α × Nat :=
  fetch_hotspots_go pages [] 0

/-- The regression scenario: reported total 750, first page full with 500
rows, second page with the remaining 250. -/
def pages750 : List (PageResult Nat) :=
  [.ok (List.replicate 500 0) 750, .ok (List.replicate 250 0) 750]

/-! ## Concrete inputs used by counterexamples and witnesses -/

def cexOld : Server := { name := "a", meta := some { created_at := "old", updated_at := "u0" }, payload := "p0" }
def cexA : Server := { name := "a", meta := some { created_at := "new", updated_at := "u1" }, payload := "p1" }
def cexB : Server := { name := "b", meta := some { created_at := "cb", updated_at := "ub" }, payload := "p2" }

def srvFoo : Server := { name := "Foo", meta := none, payload := "" }

def rawLowHigh : RawIssue :=
  { issue_severity := some "LOW", issue_confidence := some "HIGH",
    issue_text := none, filename := none, line_number := none }

/-! ## Helper lemmas about the registry upsert -/

theorem filter_ne_filter_eq_nil (R : List Server) (n : String) :
    (R.filter (fun s => s.name != n)).filter (fun s => s.name == n) = [] := by
  rw [List.filter_filter]
  apply List.filter_eq_nil_iff.mpr
  intro a _
  simp

theorem find?_filter_imp {p q : Server → Bool} (l : List Server)
    (h : ∀ x, p x = true → q x = true) :
    (l.filter q).find? p = l.find? p := by
  induction l with
  | nil => rfl
  | cons a t ih =>
    rw [List.filter_cons]
    by_cases hq : q a = true
    · rw [if_pos hq]
      by_cases hp : p a = true
      · rw [List.find?_cons_of_pos _ hp, List.find?_cons_of_pos _ hp]
      · rw [List.find?_cons_of_neg _ hp, List.find?_cons_of_neg _ hp, ih]
    · rw [if_neg hq]
      have hp : ¬ p a = true := fun hpa => hq (h a hpa)
      rw [List.find?_cons_of_neg _ hp, ih]

theorem find?_append_singleton_ne (l : List Server) (x : Server) (n : String)
    (hx : (x.name == n) = false) :
    (l ++ [x]).find? (fun s => s.name == n) = l.find? (fun s => s.name == n) := by
  induction l with
  | nil => simp [List.find?, hx]
  | cons a t ih =>
    rw [List.cons_append, List.find?_cons, List.find?_cons]
    cases h : (a.name == n) with
    | true => rfl
    | false => simpa using ih

theorem carry_eq_stored (servers : List Server) (X : Server) (xm : ServerMeta)
    (hX : X.meta = some xm) :
    carry_created_at X (find_existing servers X.name) = some (stored_record servers X) := by
  unfold carry_created_at stored_record
  cases hfe : find_existing servers X.name with
  | none => simp [hX]
  | some e =>
    cases he : e.meta with
    | none => simp [hX, he]
    | some em => simp [hX, he]

theorem upsert_eq (servers : List Server) (X : Server) (xm : ServerMeta)
    (hX : X.meta = some xm) :
    upsert_servers servers X =
      some ((servers.filter (fun s => s.name != X.name)) ++ [stored_record servers X]) := by
  unfold upsert_servers
  rw [carry_eq_stored servers X xm hX]

theorem stored_record_name (servers : List Server) (X : Server) :
    (stored_record servers X).name = X.name := by
  unfold stored_record
  cases find_existing servers X.name with
  | none => rfl
  | some e =>
    cases X.meta with
    | none => rfl
    | some xm =>
      cases hem : e.meta with
      | none => simp [hem]
      | some em => simp [hem]

theorem stored_record_congr (l l' : List Server) (X : Server)
    (h : find_existing l X.name = find_existing l' X.name) :
    stored_record l X = stored_record l' X := by
  unfold stored_record
  rw [h]

/-! ## Claim theorems about the registry -/

/-- C1: upserting a record whose name already occurs in the registry leaves
exactly one record with that name, namely the incoming record with its
`created_at` carried over from the previously stored record (when that record
had a `meta` field) and its `updated_at` the incoming new value. -/
theorem upsert_same_name_one_record_created_at_carried
    (R : List Server) (ex : String) (A : Server) (am : ServerMeta) (e : Server)
    (hA : A.meta = some am) (he : find_existing R A.name = some e) :
    ∃ out : McpData,
      add_server_to_mcp (.found { servers := R, extra := ex }) A = some (out, true) ∧
      out.servers.filter (fun s => s.name == A.name) =
        [{ A with meta := some { created_at := match e.meta with
                                  | some em => em.created_at
                                  | none => am.created_at,
                                 updated_at := am.updated_at } }] := by
  refine ⟨{ servers := R.filter (fun s => s.name != A.name) ++ [stored_record R A],
            extra := ex }, ?_, ?_⟩
  · simp only [add_server_to_mcp]
    rw [upsert_eq R A am hA]
  · rw [List.filter_append, filter_ne_filter_eq_nil, List.nil_append, List.filter_cons]
    rw [if_pos (by rw [stored_record_name]; exact beq_self_eq_true _)]
    rw [List.filter_nil]
    cases hem : e.meta with
    | some em => simp [stored_record, he, hA, hem]
    | none =>
      simp [stored_record, he, hA, hem]
      cases am
      rw [← hA]

/-- Witness for the C1 theorem at a concrete registry. -/
theorem upsert_same_name_one_record_created_at_carried_witness :
    ∃ out : McpData,
      add_server_to_mcp (.found { servers := [cexOld], extra := "" }) cexA = some (out, true) ∧
      out.servers.filter (fun s => s.name == cexA.name) =
        [{ cexA with meta := some { created_at := match cexOld.meta with
                                     | some em => em.created_at
                                     | none => "new",
                                    updated_at := "u1" } }] :=
  upsert_same_name_one_record_created_at_carried [cexOld] "" cexA
    { created_at := "new", updated_at := "u1" } cexOld rfl rfl

/-- C8 counterexample: upserting `cexA` then `cexB` into a registry that
already holds a record named like `cexA` (with a `meta` field) yields a
registry that does not contain `cexA` itself - the record under its name has
the old `created_at` - so the result's records under the two names are not
exactly the pair of incoming records. -/
theorem upsert_two_distinct_names_cex :
    upsert_servers [cexOld] cexA =
      some [{ name := "a", meta := some { created_at := "old", updated_at := "u1" },
              payload := "p1" }] ∧
    upsert_servers
        [{ name := "a", meta := some { created_at := "old", updated_at := "u1" },
           payload := "p1" }] cexB =
      some [{ name := "a", meta := some { created_at := "old", updated_at := "u1" },
              payload := "p1" }, cexB] ∧
    cexA ∉ [({ name := "a", meta := some { created_at := "old", updated_at := "u1" },
               payload := "p1" } : Server), cexB] ∧
    cexA.name = "a" := by
  refine ⟨by decide, by decide, by decide, rfl⟩

/-- C8 amended: upserting A then B (distinct names) yields the registry whose
records under the two names are exactly the stored versions of A and B (the
incoming records, with `created_at` carried over from a previously stored
record of the same name when it had a `meta` field), A appended before B, and
every record of R with another name preserved in order. -/
theorem upsert_two_distinct_names_amended
    (R : List Server) (A B : Server) (am bm : ServerMeta)
    (hA : A.meta = some am) (hB : B.meta = some bm) (hAB : A.name ≠ B.name) :
    ∃ l1, upsert_servers R A = some l1 ∧
      upsert_servers l1 B =
        some (R.filter (fun s => s.name != A.name && s.name != B.name) ++
              [stored_record R A, stored_record R B]) := by
  refine ⟨_, upsert_eq R A am hA, ?_⟩
  rw [upsert_eq _ B bm hB]
  have hfind : find_existing (R.filter (fun s => s.name != A.name) ++ [stored_record R A])
      B.name = find_existing R B.name := by
    unfold find_existing
    rw [find?_append_singleton_ne _ _ _
      (by rw [stored_record_name]; exact beq_eq_false_iff_ne.mpr hAB)]
    exact find?_filter_imp R (fun x hx => by
      have : x.name = B.name := by simpa using hx
      simp [this, bne_iff_ne, Ne.symm hAB])
  rw [stored_record_congr _ R B hfind]
  rw [List.filter_append, List.filter_cons]
  rw [if_pos (by rw [stored_record_name]; exact bne_iff_ne.mpr hAB)]
  rw [List.filter_nil, List.filter_filter]
  rw [List.filter_congr (fun a _ => Bool.and_comm _ _)]
  simp [List.append_assoc]

/-- Witness for the amended C8 theorem at a concrete registry. -/
theorem upsert_two_distinct_names_amended_witness :
    ∃ l1, upsert_servers [cexOld] cexA = some l1 ∧
      upsert_servers l1 cexB =
        some ([cexOld].filter (fun s => s.name != cexA.name && s.name != cexB.name) ++
              [stored_record [cexOld] cexA, stored_record [cexOld] cexB]) :=
  upsert_two_distinct_names_amended [cexOld] cexA cexB
    { created_at := "new", updated_at := "u1" }
    { created_at := "cb", updated_at := "ub" } rfl rfl (by decide)

/-- C9 counterexample: `find_mcp_by_name` matches a record whose name differs
from the queried name in case, so not every lookup is a case-sensitive exact
match. -/
theorem lookup_case_sensitive_cex :
    find_mcp_by_name [srvFoo] "foo" = some srvFoo ∧ srvFoo.name ≠ "foo" := by
  refine ⟨by decide, by decide⟩

/-- C9 amended: `check_server_exists` and `find_server_entry` match a record
exactly when its name equals the queried name case-sensitively, while
`find_mcp_by_name` matches exactly when the lowercased names coincide
(case-insensitive). -/
theorem lookup_match_semantics (servers : List Server) (ex q : String) :
    ((check_server_exists { servers := servers, extra := ex } q).1 = true ↔
      ∃ s ∈ servers, s.name = q) ∧
    (∀ s, find_server_entry servers q = some s → s.name = q) ∧
    ((find_server_entry servers q).isSome = true ↔ ∃ s ∈ servers, s.name = q) ∧
    (∀ s, find_mcp_by_name servers q = some s → py_lower s.name = py_lower q) ∧
    ((find_mcp_by_name servers q).isSome = true ↔
      ∃ s ∈ servers, py_lower s.name = py_lower q) := by
  refine ⟨?_, ?_, ?_, ?_, ?_⟩
  · simp [check_server_exists, List.any_eq_true]
  · intro s hs
    have := List.find?_some hs
    simpa using this
  · simp [find_server_entry, List.find?_isSome]
  · intro s hs
    have := List.find?_some hs
    simpa using this
  · simp [find_mcp_by_name, List.find?_isSome]

/-- Witness for the amended C9 theorem at a concrete server list. -/
theorem lookup_match_semantics_witness :
    (find_mcp_by_name [srvFoo] "foo").isSome = true ↔
      ∃ s ∈ [srvFoo], py_lower s.name = py_lower "foo" :=
  (lookup_match_semantics [srvFoo] "" "foo").2.2.2.2

/-- C10: every failed read in `add_server_to_mcp` - a missing key or any
other storage client error - is treated as the empty registry: no error is
surfaced, the written document holds exactly the new record (with whatever
other top-level keys reset), and the function returns `True`. -/
theorem read_failure_treated_as_empty (code : String) (A : Server) :
    add_server_to_mcp (.clientError code) A
        = some ({ servers := [A], extra := "" }, true) ∧
    add_server_to_mcp .noSuchKey A
        = some ({ servers := [A], extra := "" }, true) :=
  ⟨rfl, rfl⟩

/-! ## Claim theorems about the report aggregator -/

/-- C2: the unified report's `total_issues_all_scanners` is the sum of the
three scanner counts (each defaulting to 0 when missing), and `scan_passed`
holds exactly when all three counts are 0. -/
theorem report_total_and_scan_passed (sq : SonarData) (gg : GgshieldResult) (bd : BanditResult) :
    (create_security_report sq gg bd).total_issues_all_scanners =
      sq.issue_counts_total.getD 0 + gg.total_secrets.getD 0 + bd.total_issues.getD 0 ∧
    ((create_security_report sq gg bd).scan_passed = true ↔
      sq.issue_counts_total.getD 0 = 0 ∧ gg.total_secrets.getD 0 = 0 ∧
        bd.total_issues.getD 0 = 0) := by
  constructor
  · rfl
  · simp [create_security_report, and_assoc]

/-- Witness for the C2 theorem at concrete scanner inputs. -/
theorem report_total_and_scan_passed_witness :
    (create_security_report ⟨some 1, none⟩ ⟨some 2⟩ ⟨some 3, none⟩).total_issues_all_scanners =
      (some 1 : Option Nat).getD 0 + (some 2 : Option Nat).getD 0 +
        (some 3 : Option Nat).getD 0 :=
  (report_total_and_scan_passed ⟨some 1, none⟩ ⟨some 2⟩ ⟨some 3, none⟩).1

/-- C3: the recommendations list is exactly the concatenation of the five
rule messages in their fixed order, each present exactly when its condition
fires, with the all-passed message exactly when none fired. -/
theorem report_recommendations_exact (sq : SonarData) (gg : GgshieldResult) (bd : BanditResult) :
    (create_security_report sq gg bd).recommendations =
      (let fired :=
        (if 5 < sq.issue_counts_total.getD 0 ∨ 0 < gg.total_secrets.getD 0 ∨
            0 < bd.severity_counts_high.getD 0 then [msg_critical] else []) ++
        (if 0 < gg.total_secrets.getD 0 then [msg_secrets] else []) ++
        (if 0 < bd.total_issues.getD 0 then [msg_vulns] else []) ++
        (if 0 < bd.severity_counts_high.getD 0 then [msg_high] else []) ++
        (if resolve_coverage sq.metrics_coverage < 80 then [msg_coverage] else []) ;
      if fired = [] then [msg_all_passed] else fired) := by
  simp only [create_security_report, List.length_eq_zero]

/-- C7 counterexample: with all three scanner counts 0 the report can still
recommend something other than the all-passed message - a missing coverage
metric (defaulting to 0 < 80) yields the coverage recommendation, and a
nonzero high-severity tally yields the critical/high ones - so the
recommendations list is not always exactly the all-passed singleton. -/
theorem all_counts_zero_cex :
    (create_security_report ⟨some 0, none⟩ ⟨some 0⟩ ⟨some 0, some 0⟩).scan_passed = true ∧
    (create_security_report ⟨some 0, none⟩ ⟨some 0⟩ ⟨some 0, some 0⟩).recommendations
      = [msg_coverage] ∧
    (create_security_report ⟨some 0, some (.numStr 90)⟩ ⟨some 0⟩
        ⟨some 0, some 1⟩).scan_passed = true ∧
    (create_security_report ⟨some 0, some (.numStr 90)⟩ ⟨some 0⟩
        ⟨some 0, some 1⟩).recommendations = [msg_critical, msg_high] ∧
    msg_coverage ≠ msg_all_passed ∧ msg_critical ≠ msg_all_passed := by
  refine ⟨rfl, by decide, rfl, by decide, by decide, by decide⟩

/-- C7 amended: if the three scanner counts are all 0 then `scan_passed` is
true regardless of the other fields; and the recommendations list is exactly
the all-passed singleton provided additionally the high-severity tally
(default 0) is 0 and the coverage metric (parsed as float, default 0) is at
least 80. -/
theorem all_counts_zero_amended (sq : SonarData) (gg : GgshieldResult) (bd : BanditResult)
    (h1 : sq.issue_counts_total.getD 0 = 0)
    (h2 : gg.total_secrets.getD 0 = 0)
    (h3 : bd.total_issues.getD 0 = 0) :
    (create_security_report sq gg bd).scan_passed = true ∧
    (bd.severity_counts_high.getD 0 = 0 → 80 ≤ resolve_coverage sq.metrics_coverage →
      (create_security_report sq gg bd).recommendations = [msg_all_passed]) := by
  constructor
  · simp [create_security_report, h1, h2, h3]
  · intro h4 hcov
    simp [create_security_report, h1, h2, h3, h4, not_lt.mpr hcov]

/-- Witness for the amended C7 theorem at concrete scanner inputs. -/
theorem all_counts_zero_amended_witness :
    (create_security_report ⟨some 0, some (.numStr 90)⟩ ⟨some 0⟩
        ⟨some 0, some 0⟩).scan_passed = true ∧
    (create_security_report ⟨some 0, some (.numStr 90)⟩ ⟨some 0⟩
        ⟨some 0, some 0⟩).recommendations = [msg_all_passed] :=
  ⟨(all_counts_zero_amended ⟨some 0, some (.numStr 90)⟩ ⟨some 0⟩ ⟨some 0, some 0⟩
      rfl rfl rfl).1,
   (all_counts_zero_amended ⟨some 0, some (.numStr 90)⟩ ⟨some 0⟩ ⟨some 0, some 0⟩
      rfl rfl rfl).2 rfl (by decide)⟩

/-! ## Claim theorems about the Bandit adapter -/

theorem bump_severity_high (c : SeverityCounts) (k : String) :
    (bump_severity c k).high = c.high + (if k == "high" then 1 else 0) := by
  unfold bump_severity
  split_ifs <;> rfl

theorem bump_severity_medium (c : SeverityCounts) (k : String) :
    (bump_severity c k).medium = c.medium + (if k == "medium" then 1 else 0) := by
  unfold bump_severity
  split_ifs with h1 h2 <;> first | rfl | (simp_all)

theorem bump_severity_low (c : SeverityCounts) (k : String) :
    (bump_severity c k).low = c.low + (if k == "low" then 1 else 0) := by
  unfold bump_severity
  split_ifs with h1 h2 h3 <;> first | rfl | (simp_all)

theorem fold_counts_high (l : List RawIssue) (c : SeverityCounts) :
    (l.foldl (fun c i => bump_severity c (normalize_issue i).severity) c).high =
      c.high + (l.filter (fun r => (normalize_issue r).severity == "high")).length := by
  induction l generalizing c with
  | nil => simp
  | cons a t ih =>
    rw [List.foldl_cons, ih, bump_severity_high, List.filter_cons]
    by_cases h : ((normalize_issue a).severity == "high") = true
    · simp [h]
      try omega
    · simp [h]
      try omega

theorem fold_counts_medium (l : List RawIssue) (c : SeverityCounts) :
    (l.foldl (fun c i => bump_severity c (normalize_issue i).severity) c).medium =
      c.medium + (l.filter (fun r => (normalize_issue r).severity == "medium")).length := by
  induction l generalizing c with
  | nil => simp
  | cons a t ih =>
    rw [List.foldl_cons, ih, bump_severity_medium, List.filter_cons]
    by_cases h : ((normalize_issue a).severity == "medium") = true
    · simp [h]
      try omega
    · simp [h]
      try omega

theorem fold_counts_low (l : List RawIssue) (c : SeverityCounts) :
    (l.foldl (fun c i => bump_severity c (normalize_issue i).severity) c).low =
      c.low + (l.filter (fun r => (normalize_issue r).severity == "low")).length := by
  induction l generalizing c with
  | nil => simp
  | cons a t ih =>
    rw [List.foldl_cons, ih, bump_severity_low, List.filter_cons]
    by_cases h : ((normalize_issue a).severity == "low") = true
    · simp [h]
      try omega
    · simp [h]
      try omega

theorem insert_by_sev_perm (x : DetailedIssue) (l : List DetailedIssue) :
    (insert_by_sev x l).Perm (x :: l) := by
  induction l with
  | nil => exact List.Perm.refl _
  | cons y ys ih =>
    unfold insert_by_sev
    split
    · exact (ih.cons y).trans (List.Perm.swap x y ys)
    · exact List.Perm.refl _

theorem sort_by_sev_perm (l : List DetailedIssue) : (sort_by_sev l).Perm l := by
  induction l with
  | nil => exact List.Perm.refl _
  | cons x xs ih => exact (insert_by_sev_perm x (sort_by_sev xs)).trans (ih.cons x)

/-- C6 counterexample: for a raw issue with `issue_severity = "LOW"` and
`issue_confidence = "HIGH"`, the normalized result records severity bucket
`"low"` - the mapped severity field - while the mapped confidence field is
`"high"`, and the tally counts it under low, not high.  So the bucket is not
the mapped confidence value. -/
theorem bandit_severity_from_confidence_cex :
    (parse_bandit_results { results := [rawLowHigh], totals_loc := none }).issues =
      [{ title := "Unknown security issue", severity := "low", confidence := "high",
         file := "Unknown", line_number := 0 }] ∧
    confidence_map_get (py_upper (rawLowHigh.issue_confidence.getD "UNDEFINED")) = "high" ∧
    (parse_bandit_results { results := [rawLowHigh], totals_loc := none }).severity_counts =
      { high := 0, medium := 0, low := 1 } ∧
    ("low" : String) ≠ "high" := by
  refine ⟨by decide, by decide, by decide, by decide⟩

/-- C6 amended: the severity bucket of every normalized issue is the mapped
value of the tool's severity field (`issue_severity`), not of its confidence
field, the per-severity counts are tallied from that same bucket, and the
output issue list is a permutation (stable severity-rank sort) of the
normalized inputs. -/
theorem bandit_severity_from_severity_field (raw : BanditRaw) :
    ((parse_bandit_results raw).issues.Perm (raw.results.map normalize_issue)) ∧
    (∀ r : RawIssue, (normalize_issue r).severity =
        confidence_map_get (py_upper (r.issue_severity.getD "UNDEFINED"))) ∧
    (parse_bandit_results raw).severity_counts.high =
      (raw.results.filter (fun r => (normalize_issue r).severity == "high")).length ∧
    (parse_bandit_results raw).severity_counts.medium =
      (raw.results.filter (fun r => (normalize_issue r).severity == "medium")).length ∧
    (parse_bandit_results raw).severity_counts.low =
      (raw.results.filter (fun r => (normalize_issue r).severity == "low")).length := by
  refine ⟨sort_by_sev_perm _, fun r => rfl, ?_, ?_, ?_⟩
  · have h := fold_counts_high raw.results ⟨0, 0, 0⟩
    simpa [parse_bandit_results] using h
  · have h := fold_counts_medium raw.results ⟨0, 0, 0⟩
    simpa [parse_bandit_results] using h
  · have h := fold_counts_low raw.results ⟨0, 0, 0⟩
    simpa [parse_bandit_results] using h

/-- Witness for the amended C6 theorem at a concrete raw result. -/
theorem bandit_severity_from_severity_field_witness :
    (parse_bandit_results { results := [rawLowHigh], totals_loc := none }).severity_counts.low =
      ([rawLowHigh].filter (fun r => (normalize_issue r).severity == "low")).length :=
  (bandit_severity_from_severity_field { results := [rawLowHigh], totals_loc := none }).2.2.2.2

/-! ## Claim theorems about the analysis poller -/

theorem wait_go_all_none (responses : Nat → PollResponse)
    (h : ∀ j, poll_outcome (responses j) = none) :
    ∀ (n max_wait i elapsed sleeps : Nat), max_wait - elapsed ≤ n →
      (wait_go responses max_wait i elapsed sleeps).1 = true := by
  intro n
  induction n with
  | zero =>
    intro max_wait i elapsed sleeps hn
    rw [wait_go]
    have hge : ¬ elapsed < max_wait := by omega
    simp [hge]
  | succ n ih =>
    intro max_wait i elapsed sleeps hn
    rw [wait_go]
    by_cases hlt : elapsed < max_wait
    · rw [dif_pos hlt, h i]
      exact ih max_wait (i + 1) (elapsed + 3) (sleeps + 1) (by omega)
    · rw [dif_neg hlt]

/-- C4: on the status sequence QUEUED, IN_PROGRESS, SUCCESS the poller sleeps
exactly twice and returns ready; a first response with any terminal status
other than SUCCESS/PENDING/IN_PROGRESS makes it return not-ready at once; and
when every response is non-terminal the deadline passes and it still returns
ready (timeout-as-success). -/
theorem poller_sleeps_terminal_timeout :
    wait_for_analysis_completion respSeq3 60 = (true, 2) ∧
    (∀ (s : String) (responses : Nat → PollResponse) (max_wait : Nat),
      responses 0 = .currentResp s → s ≠ "SUCCESS" → s ≠ "PENDING" → s ≠ "IN_PROGRESS" →
      0 < max_wait → wait_for_analysis_completion responses max_wait = (false, 0)) ∧
    (∀ (responses : Nat → PollResponse) (max_wait : Nat),
      (∀ j, poll_outcome (responses j) = none) →
      (wait_for_analysis_completion responses max_wait).1 = true) := by
  refine ⟨?_, ?_, ?_⟩
  · show wait_go respSeq3 60 0 0 0 = (true, 2)
    rw [wait_go]; simp [respSeq3, poll_outcome]
    rw [wait_go]; simp [respSeq3, poll_outcome]
    rw [wait_go]; simp [respSeq3, poll_outcome]
  · intro s responses max_wait h0 hS hP hI hw
    show wait_go responses max_wait 0 0 0 = (false, 0)
    rw [wait_go, dif_pos hw, h0]
    simp [poll_outcome, hS, hP, hI]
  · intro responses max_wait h
    exact wait_go_all_none responses h max_wait max_wait 0 0 0 (by omega)

/-- Witness for the C4 theorem: a first-response FAILED status returns
not-ready with no sleeps, and an all-queued stream still reports ready. -/
theorem poller_sleeps_terminal_timeout_witness :
    wait_for_analysis_completion (fun _ => PollResponse.currentResp "FAILED") 60 = (false, 0) ∧
    (wait_for_analysis_completion (fun _ => PollResponse.queuedResp) 60).1 = true :=
  ⟨poller_sleeps_terminal_timeout.2.1 "FAILED" (fun _ => PollResponse.currentResp "FAILED") 60
      rfl (by decide) (by decide) (by decide) (by decide),
   poller_sleeps_terminal_timeout.2.2 (fun _ => PollResponse.queuedResp) 60 (fun _ => rfl)⟩

/-! ## Claim theorems about pagination -/

theorem fetch_issues_go_reqs_le {α : Type} (pages : List (PageResult α)) :
    ∀ (acc : List α) (reqs : Nat), (fetch_issues_go pages acc reqs).2 ≤ reqs + pages.length := by
  induction pages with
  | nil =>
    intro acc reqs
    simp [fetch_issues_go]
  | cons p rest ih =>
    intro acc reqs
    cases p with
    | httpError => simp [fetch_issues_go]
    | exn => simp [fetch_issues_go]
    | ok rows total =>
      simp only [fetch_issues_go]
      split
      · simp
      · have := ih (acc ++ rows) (reqs + 1)
        simp at this ⊢
        omega

theorem fetch_hotspots_go_reqs_le {α : Type} (pages : List (PageResult α)) :
    ∀ (acc : List α) (reqs : Nat), (fetch_hotspots_go pages acc reqs).2 ≤ reqs + pages.length := by
  induction pages with
  | nil =>
    intro acc reqs
    simp [fetch_hotspots_go]
  | cons p rest ih =>
    intro acc reqs
    cases p with
    | httpError => simp [fetch_hotspots_go]
    | exn => simp [fetch_hotspots_go]
    | ok rows total =>
      simp only [fetch_hotspots_go]
      split
      · simp
      · have := ih (acc ++ rows) (reqs + 1)
        simp at this ⊢
        omega

/-- C5: both pagination loops terminate, making at most one request per
provided page response; a page is the last one as soon as the accumulated
count reaches the reported total or the page is short of 500 rows; a failed
request (non-200 or exception) ends the loop returning the rows accumulated
so far; and in the regression scenario - reported total 750 with pages of
500 and 250 rows - exactly 2 page requests are made. -/
theorem pagination_stops_and_returns_partial :
    (∀ pages : List (PageResult Nat),
      (fetch_issues pages).2 ≤ pages.length ∧ (fetch_hotspots pages).2 ≤ pages.length) ∧
    (∀ (rows : List Nat) (total : Nat) (rest : List (PageResult Nat))
        (acc : List Nat) (reqs : Nat),
      total ≤ (acc ++ rows).length ∨ rows.length < page_size →
      fetch_issues_go (.ok rows total :: rest) acc reqs = (acc ++ rows, reqs + 1) ∧
      fetch_hotspots_go (.ok rows total :: rest) acc reqs = (acc ++ rows, reqs + 1)) ∧
    (∀ (rest : List (PageResult Nat)) (acc : List Nat) (reqs : Nat),
      fetch_issues_go (.httpError :: rest) acc reqs = (acc, reqs + 1) ∧
      fetch_issues_go (.exn :: rest) acc reqs = (acc, reqs + 1) ∧
      fetch_hotspots_go (.httpError :: rest) acc reqs = (acc, reqs + 1) ∧
      fetch_hotspots_go (.exn :: rest) acc reqs = (acc, reqs + 1)) ∧
    fetch_issues pages750 = (List.replicate 500 0 ++ List.replicate 250 0, 2) ∧
    fetch_hotspots pages750 = (List.replicate 500 0 ++ List.replicate 250 0, 2) := by
  refine ⟨?_, ?_, ?_, ?_, ?_⟩
  · intro pages
    exact ⟨by simpa using fetch_issues_go_reqs_le pages [] 0,
           by simpa using fetch_hotspots_go_reqs_le pages [] 0⟩
  · intro rows total rest acc reqs h
    constructor
    · simp only [fetch_issues_go]
      rw [if_pos h]
    · simp only [fetch_hotspots_go]
      rw [if_pos h]
  · intro rest acc reqs
    exact ⟨rfl, rfl, rfl, rfl⟩
  · show fetch_issues_go pages750 [] 0 = _
    simp only [pages750, fetch_issues_go, page_size, List.nil_append, List.length_append,
      List.length_replicate]
    norm_num
  · show fetch_hotspots_go pages750 [] 0 = _
    simp only [pages750, fetch_hotspots_go, page_size, List.nil_append, List.length_append,
      List.length_replicate]
    norm_num

/-- Witness for the C5 theorem: a single page holding the full reported
total is the only request made. -/
theorem pagination_stops_and_returns_partial_witness :
    fetch_issues_go [PageResult.ok [7] 1] ([] : List Nat) 0 = ([7], 1) ∧
    fetch_hotspots_go [PageResult.ok [7] 1] ([] : List Nat) 0 = ([7], 1) := by
  have h := pagination_stops_and_returns_partial.2.1 [7] 1 [] [] 0 (by decide)
  simpa using h

end Mcphub
